import Mathlib

/-!
Verification development for the virtual security camera server
(`virtual_camera.py`): a shallow embedding of its MJPEG wire format,
per-connection streaming loop, frame source, TLS provisioning and
dual-listener startup logic, with theorems settling the specified
properties.

Bytes are modelled as `List Nat` (each entry one octet); ASCII text is
injected via `strBytes`.
-/

/-- Bytes of an ASCII string, one `Nat` per octet. -/
def strBytes (s : String) : List Nat := s.toList.map Char.toNat

/-- Little-endian base-10 digits of `n`, with explicit fuel so the
definition reduces in the kernel. -/
def natDigitsRev : Nat → Nat → List Nat
  | 0, _ => []
  | fuel + 1, n => if n = 0 then [] else n % 10 :: natDigitsRev fuel (n / 10)

/-- Decimal rendering of a natural number as ASCII digit bytes; models
Python `str(n)` for a nonnegative `int`. -/
def natDecimal (n : Nat) : List Nat :=
  if n = 0 then [48] else ((natDigitsRev n n).map (fun d => d + 48)).reverse

/-- Numeric value of a list of ASCII decimal digit bytes
(most significant first). -/
def decVal (ds : List Nat) : Nat :=
  Nat.ofDigits 10 ((ds.map (fun d => d - 48)).reverse)

/-- Whether a byte is an ASCII decimal digit. -/
def isDigitByte (d : Nat) : Bool := decide (48 ≤ d ∧ d ≤ 57)

/-- Strip an expected byte sequence from the front of a byte list,
returning the remainder on an exact match. -/
def dropPrefixBytes : List Nat → List Nat → Option (List Nat)
  | [], bs => some bs
  | _ :: _, [] => none
  | a :: as, b :: bs => if a = b then dropPrefixBytes as bs else none

/-- One header line as buffered by `send_header(name, value)` and flushed
by `end_headers`: the bytes of `"%s: %s\r\n" % (name, value)`. -/
def headerLine (name : String) (value : List Nat) : List Nat :=
  strBytes (name ++ ": ") ++ (value ++ strBytes "\r\n")

/-- The bytes one successful iteration of the `/stream` loop writes for an
encoded image `payload`, in the order of the writes in `do_GET`
(`virtual_camera.py` lines 136-141): the boundary literal, the buffered
`Content-Type` and `Content-Length` header lines, the blank line appended
by `end_headers`, the payload, and a trailing CRLF. -/
def partBytes (payload : List Nat) : List Nat :=
  strBytes "--frame\r\n" ++
    (headerLine "Content-Type" (strBytes "image/jpeg") ++
      (headerLine "Content-Length" (natDecimal payload.length) ++
        (strBytes "\r\n" ++ (payload ++ strBytes "\r\n"))))

/-- The fixed bytes that precede the declared length in every part. -/
def partHead : String := "--frame\r\nContent-Type: image/jpeg\r\nContent-Length: "

/-- Parser for one multipart part: strips the fixed head, reads the decimal
`Content-Length` digits, the CRLF ending the header line plus the blank
line, then exactly the declared number of payload bytes, then the trailing
CRLF. Returns the declared length and the payload bytes. -/
def parsePart (bs : List Nat) : Option (Nat × List Nat) :=
  (dropPrefixBytes (strBytes partHead) bs).bind fun r1 =>
    let ds := r1.takeWhile isDigitByte
    let r2 := r1.dropWhile isDigitByte
    if ds = [] then none
    else
      (dropPrefixBytes (strBytes "\r\n\r\n") r2).bind fun r3 =>
        let n := decVal ds
        if (r3.take n).length = n ∧ r3.drop n = strBytes "\r\n" then
          some (n, r3.take n)
        else none

/-! ## Synthetic frames and the camera (`VirtualCamera`) -/

/-- External deterministic math and formatting collaborators used by
`_generate_synthetic_frame`: `np.sin`, `np.cos` (fixed deterministic
floating-point functions, modelled over `ℚ`) and `time.strftime` applied
to a wall-clock instant. -/
structure MathOps where
  sin : ℚ → ℚ
  cos : ℚ → ℚ
  strftime : Nat → String

/-- Python `int()` applied to a rational: truncation toward zero. -/
def pyInt (q : ℚ) : Int := if 0 ≤ q then ⌊q⌋ else ⌈q⌉

/-- One `cv2.putText` call: the text drawn and all its parameters. -/
structure TextOverlay where
  text : String
  org : Int × Int
  fontFace : Nat
  fontScale : ℚ
  color : Nat × Nat × Nat
  thickness : Nat

/-- One `cv2.circle` call: center, radius, color, thickness. -/
structure CircleOverlay where
  center : Int × Int
  radius : Nat
  color : Nat × Nat × Nat
  thickness : Int

/-- The `cv2` font id `FONT_HERSHEY_SIMPLEX`. -/
def FONT_HERSHEY_SIMPLEX : Nat := 0

/-- A synthetic frame: the 480x640 gradient background (pixel channels as
a function of the coordinates) and the four drawing operations applied on
top of it, in source order. -/
structure SynFrame where
  height : Nat
  width : Nat
  background : Nat → Nat → Nat × Nat × Nat
  timestampText : TextOverlay
  marker : CircleOverlay
  captionMain : TextOverlay
  captionSim : TextOverlay

/-- `VirtualCamera._generate_synthetic_frame`, as a pure function of the
frame counter and the wall-clock instant (`virtual_camera.py` lines
242-270): gradient background, timestamp text at (10, 30), a marker
circle whose center is a sinusoidal function of the counter, and the two
caption overlays. -/
def generate_synthetic_frame_image (ops : MathOps) (count : Nat) (now : Nat) : SynFrame :=
  { height := 480
    width := 640
    background := fun y x =>
      ((pyInt ((50 : ℚ) + ((y : ℚ) / 480) * 50)).toNat,
       (pyInt ((50 : ℚ) + ((x : ℚ) / 640) * 50)).toNat,
       100)
    timestampText :=
      { text := ops.strftime now
        org := (10, 30)
        fontFace := FONT_HERSHEY_SIMPLEX
        fontScale := 7 / 10
        color := (255, 255, 255)
        thickness := 2 }
    marker :=
      { center :=
          (pyInt ((320 : ℚ) + 200 * ops.sin ((count : ℚ) * (5 / 100))),
           pyInt ((240 : ℚ) + 100 * ops.cos ((count : ℚ) * (3 / 100))))
        radius := 20
        color := (0, 255, 0)
        thickness := -1 }
    captionMain :=
      { text := "VIRTUAL SECURITY CAMERA"
        org := (10, 450)
        fontFace := FONT_HERSHEY_SIMPLEX
        fontScale := 8 / 10
        color := (255, 255, 0)
        thickness := 2 }
    captionSim :=
      { text := "SIMULATION MODE"
        org := (10, 420)
        fontFace := FONT_HERSHEY_SIMPLEX
        fontScale := 6 / 10
        color := (0, 255, 255)
        thickness := 2 } }

/-- A frame handed to the encoder: either a synthetic frame or a raw frame
read from the capture device (identified by the device's read payload). -/
inductive Frame
  | synthetic (sf : SynFrame)
  | device (raw : Nat)

/-- The mutable state of a `VirtualCamera` instance: constructor arguments,
the simulation flag, the capture handle (`none` = the `cap` attribute is
`None`; `some b` = a capture object whose `isOpened()` returns `b`) and the
frame counter. -/
structure CamState where
  camera_source : Int
  simulation_mode : Bool
  cap : Option Bool
  frame_count : Nat

/-- Outcome of `cv2.VideoCapture(camera_source)` in `_initialize_camera`:
the capture opened, the capture object was created but is not opened, or
the call raised an exception. -/
inductive OpenOutcome
  | opened
  | notOpened
  | raised
deriving DecidableEq

/-- `VirtualCamera._initialize_camera` (`virtual_camera.py` lines 223-240):
on an unopened capture or an exception, the simulation flag is set to
`True`; on success the opened capture is stored. -/
def initialize_camera (o : OpenOutcome) (s : CamState) : CamState :=
  match o with
  | .opened => { s with cap := some true }
  | .notOpened => { s with cap := some false, simulation_mode := true }
  | .raised => { s with simulation_mode := true }

/-- `VirtualCamera.__init__` (`virtual_camera.py` lines 206-221): stores the
arguments, starts the counter at zero with no capture handle, and calls
`_initialize_camera` exactly when `simulation_mode` is false. Total: every
open outcome yields a constructed state. -/
def mkVirtualCamera (src : Int) (simulation_mode : Bool) (o : OpenOutcome) : CamState :=
  let s : CamState :=
    { camera_source := src, simulation_mode := simulation_mode, cap := none, frame_count := 0 }
  if simulation_mode then s else initialize_camera o s

/-- `VirtualCamera._generate_synthetic_frame` as the method acting on the
camera state: produces the image for the current counter and increments
the counter. -/
def generate_synthetic_frame (ops : MathOps) (now : Nat) (s : CamState) : SynFrame × CamState :=
  (generate_synthetic_frame_image ops s.frame_count now,
   { s with frame_count := s.frame_count + 1 })

/-- `VirtualCamera.get_frame` (`virtual_camera.py` lines 272-286).
`readResult` models the outcome of `self.cap.read()`: `some raw` when
`ret` is true with frame `raw`, `none` on a failed read. In simulation
mode a synthetic frame is generated; otherwise a frame is read from an
opened capture, and a failed read or a missing/unopened capture yields
`none` (Python `None`). -/
def get_frame (ops : MathOps) (now : Nat) (readResult : Option Nat) (s : CamState) :
    Option Frame × CamState :=
  if s.simulation_mode then
    let (sf, s') := generate_synthetic_frame ops now s
    (some (.synthetic sf), s')
  else
    match s.cap with
    | some true =>
      match readResult with
      | some raw => (some (.device raw), s)
      | none => (none, s)
    | _ => (none, s)

/-! ## The per-connection streaming loop (`MJPEGHandler.do_GET`, `/stream`) -/

/-- Connection states of the per-connection stream handler. -/
inductive ConnState
  | Negotiating
  | Streaming
  | Closed
deriving DecidableEq

/-- Outcome of the socket writes of one iteration: they all succeed, or one
raises `ConnectionResetError` or `BrokenPipeError`. -/
inductive WriteOutcome
  | ok
  | connectionReset
  | brokenPipe
deriving DecidableEq

/-- One iteration of the `while True` loop in `do_GET` for the stream path
(`virtual_camera.py` lines 128-142), from the `Streaming` state: the bytes
written on the connection this tick and the next connection state.
`frame` is the value of `get_frame()`, `enc` models
`cv2.imencode('.jpg', frame, [cv2.IMWRITE_JPEG_QUALITY, 85])` (`none` when
`ret` is false), `w` the outcome of the writes, and `shutdownRequested`
whether `VirtualCameraServer.stop` has been called — the loop body never
reads any shutdown state, so this input is unused, exactly as in the
source. A write exception leaves the loop (handler `Closed`); otherwise
the loop stays in `Streaming`. -/
def doGetStreamTick (frame : Option Frame) (enc : Frame → Option (List Nat))
    (w : WriteOutcome) (shutdownRequested : Bool) : List Nat × ConnState :=
  match frame with
  | none => ([], .Streaming)
  | some f =>
    match enc f with
    | none => ([], .Streaming)
    | some buf =>
      match w with
      | .ok => (partBytes buf, .Streaming)
      | .connectionReset => ([], .Closed)
      | .brokenPipe => ([], .Closed)

/-! ## TLS identity generation (`SSLContext.generate_self_signed_cert`) -/

/-- Signature hash algorithms. -/
inductive HashAlg
  | sha256
  | sha1
  | md5
deriving DecidableEq

/-- Whether a hash algorithm counts as modern (collision-resistant and
currently acceptable for certificate signatures). -/
def modernHash : HashAlg → Bool
  | .sha256 => true
  | .sha1 => false
  | .md5 => false

/-- A subject-alternative-name entry: DNS name or IP address. -/
inductive SAN
  | dns (name : String)
  | ip (addr : String)
deriving DecidableEq

/-- An RSA private key as generated by `rsa.generate_private_key`: the
public exponent and key size it was created with, plus an abstract
identity distinguishing independently generated keys. -/
structure RSAPrivateKey where
  publicExponent : Nat
  keySize : Nat
  keyId : Nat
deriving DecidableEq

/-- The public half of an RSA key, identified by the key it belongs to. -/
structure RSAPublicKey where
  ofKeyId : Nat
deriving DecidableEq

/-- `private_key.public_key()`. -/
def RSAPrivateKey.public_key (k : RSAPrivateKey) : RSAPublicKey := ⟨k.keyId⟩

/-- The `x509.Name` built in `generate_self_signed_cert`, attribute by
attribute. -/
structure DistName where
  country : String
  stateOrProvince : String
  locality : String
  organization : String
  commonName : String
deriving DecidableEq

/-- The certificate assembled by the `x509.CertificateBuilder` chain:
subject, issuer, embedded public key, serial number, validity bounds
(seconds), subject-alternative names, the signing key and the signature
hash. -/
structure Certificate where
  subject : DistName
  issuer : DistName
  publicKey : RSAPublicKey
  serialNumber : Nat
  notBefore : Nat
  notAfter : Nat
  san : List SAN
  signedBy : Nat
  sigHash : HashAlg
deriving DecidableEq

/-- Serialization parameters of the written private-key file. -/
structure KeyFileOutput where
  pem : Bool
  pkcs8 : Bool
  unencrypted : Bool
deriving DecidableEq

/-- Seconds in 365 days, the `timedelta(days=365)` added to `utcnow()`. -/
def days365 : Nat := 365 * 86400

/-- `SSLContext.generate_self_signed_cert` (`virtual_camera.py` lines
41-99) on its success path, as a function of the hostname argument, the
wall clock `now` read by `datetime.utcnow()`, the freshly generated key's
identity and the random serial number: the generated private key, the
signed certificate, and the serialization parameters of the key file. -/
def generate_self_signed_cert (hostname : String) (now : Nat) (keyId serial : Nat) :
    RSAPrivateKey × Certificate × KeyFileOutput :=
  let private_key : RSAPrivateKey := { publicExponent := 65537, keySize := 2048, keyId := keyId }
  let subject : DistName :=
    { country := "US"
      stateOrProvince := "Virtual Camera"
      locality := "Local"
      organization := "Virtual Security Camera"
      commonName := hostname }
  let cert : Certificate :=
    { subject := subject
      issuer := subject
      publicKey := private_key.public_key
      serialNumber := serial
      notBefore := now
      notAfter := now + days365
      san := [SAN.dns hostname, SAN.dns "localhost", SAN.ip "127.0.0.1"]
      signedBy := private_key.keyId
      sigHash := .sha256 }
  (private_key, cert,
   { pem := true, pkcs8 := true, unencrypted := true })

/-! ## Certificate provisioning and server startup (`VirtualCameraServer`) -/

/-- A file on disk: contents and modification time. -/
structure FileData where
  contents : List Nat
  mtime : Nat
deriving DecidableEq

/-- The certificate and key paths on disk (`none` = the file is missing). -/
structure CertFS where
  cert : Option FileData
  key : Option FileData
deriving DecidableEq

/-- The provisioning step of `VirtualCameraServer.start` (`virtual_camera.py`
lines 337-342): generation runs exactly when the certificate file or the
key file is missing, writing both files with fresh contents at time `now`;
when both exist nothing is touched. Returns the resulting file system and
whether generation ran. -/
def provisionCerts (fs : CertFS) (newCert newKey : List Nat) (now : Nat) : CertFS × Bool :=
  if !fs.cert.isSome || !fs.key.isSome then
    ({ cert := some { contents := newCert, mtime := now }
       key := some { contents := newKey, mtime := now } }, true)
  else (fs, false)

/-- The inputs determining the control flow of `VirtualCameraServer.start`:
the listener toggles, whether the certificate and key files exist, and the
outcomes of the external calls (directory creation, certificate
generation, SSL-context construction, the two socket binds). -/
structure StartInput where
  use_https : Bool
  use_http : Bool
  cert_exists : Bool
  key_exists : Bool
  mkdir_ok : Bool
  gen_ok : Bool
  ctx_ok : Bool
  https_bind_ok : Bool
  http_bind_ok : Bool
deriving DecidableEq

/-- Result of `VirtualCameraServer.start`: the process exited via
`sys.exit(1)` (an exception reached the outer handler), or the server is
running its keep-alive loop with the given listeners active. -/
inductive StartResult
  | exited
  | running (https_on : Bool) (http_on : Bool)
deriving DecidableEq

/-- `VirtualCameraServer.start` (`virtual_camera.py` lines 325-403).
If HTTPS is enabled: a failing directory creation raises and reaches
`sys.exit(1)`; generation runs when either file is missing and a failed
generation merely clears `use_https`; a failed SSL-context setup likewise
clears `use_https`; a failing HTTPS bind raises and exits. If HTTP is
enabled, a failing HTTP bind raises and exits. Otherwise the server runs
with whichever listeners were started — including none, when both toggles
are off: no code path treats that as an error. -/
def serverStart (i : StartInput) : StartResult :=
  if i.use_https && !i.mkdir_ok then .exited
  else
    let needGen := i.use_https && (!i.cert_exists || !i.key_exists)
    let httpsAfterGen := i.use_https && (!needGen || i.gen_ok)
    let httpsOn := httpsAfterGen && i.ctx_ok
    if httpsOn && !i.https_bind_ok then .exited
    else if i.use_http && !i.http_bind_ok then .exited
    else .running httpsOn i.use_http

/-! ## Supporting lemmas -/

theorem natDigitsRev_eq_digits : ∀ (fuel n : Nat), n ≤ fuel → natDigitsRev fuel n = Nat.digits 10 n := by
  intro fuel
  induction fuel with
  | zero =>
    intro n hn
    have : n = 0 := Nat.le_zero.mp hn
    subst this
    simp [natDigitsRev]
  | succ f ih =>
    intro n hn
    by_cases h0 : n = 0
    · subst h0; simp [natDigitsRev]
    · rw [natDigitsRev, if_neg h0, ih (n / 10) (by omega)]
      exact (Nat.digits_def' (by norm_num : (1 : Nat) < 10) (Nat.pos_of_ne_zero h0)).symm

theorem mem_natDecimal_isDigit (n : Nat) : ∀ d ∈ natDecimal n, isDigitByte d = true := by
  intro d hd
  unfold natDecimal at hd
  by_cases h0 : n = 0
  · rw [if_pos h0] at hd
    simp at hd
    subst hd
    decide
  · rw [if_neg h0, natDigitsRev_eq_digits n n le_rfl] at hd
    simp only [List.mem_reverse, List.mem_map] at hd
    obtain ⟨d0, hd0, rfl⟩ := hd
    have hlt : d0 < 10 := Nat.digits_lt_base (by norm_num) hd0
    simp [isDigitByte]
    omega

theorem natDecimal_ne_nil (n : Nat) : natDecimal n ≠ [] := by
  unfold natDecimal
  by_cases h0 : n = 0
  · simp [h0]
  · rw [if_neg h0, natDigitsRev_eq_digits n n le_rfl]
    cases hdig : Nat.digits 10 n with
    | nil => exact absurd hdig (Nat.digits_ne_nil_iff_ne_zero.mpr h0)
    | cons a l => simp [hdig]

theorem decVal_natDecimal (n : Nat) : decVal (natDecimal n) = n := by
  unfold decVal natDecimal
  by_cases h0 : n = 0
  · simp [h0, Nat.ofDigits]
  · rw [if_neg h0, natDigitsRev_eq_digits n n le_rfl]
    rw [List.map_reverse, List.reverse_reverse, List.map_map]
    have hfun : ((fun d : Nat => d - 48) ∘ fun d : Nat => d + 48) = id := by
      funext d
      simp
    rw [hfun, List.map_id, Nat.ofDigits_digits]

theorem dropPrefixBytes_append : ∀ (p r : List Nat), dropPrefixBytes p (p ++ r) = some r := by
  intro p
  induction p with
  | nil => intro r; rfl
  | cons a as ih => intro r; simp [dropPrefixBytes, ih]

theorem takeWhile_append_stop {p : Nat → Bool} :
    ∀ (l : List Nat) (a : Nat) (r : List Nat), (∀ x ∈ l, p x = true) → p a = false →
      (l ++ a :: r).takeWhile p = l ∧ (l ++ a :: r).dropWhile p = a :: r := by
  intro l
  induction l with
  | nil =>
    intro a r _ ha
    simp [List.takeWhile_cons, List.dropWhile_cons, ha]
  | cons x xs ih =>
    intro a r hl ha
    have hx : p x = true := hl x (List.mem_cons_self x xs)
    have h2 := ih a r (fun y hy => hl y (List.mem_cons_of_mem x hy)) ha
    simp [List.takeWhile_cons, List.dropWhile_cons, hx, h2.1, h2.2]

theorem take_len_append : ∀ (l r : List Nat), (l ++ r).take l.length = l ∧ (l ++ r).drop l.length = r := by
  intro l
  induction l with
  | nil => intro r; simp
  | cons x xs ih => intro r; simp [List.take, List.drop, (ih r).1, (ih r).2]

theorem partBytes_shape (p : List Nat) :
    partBytes p =
      strBytes partHead ++
        (natDecimal p.length ++ (strBytes "\r\n\r\n" ++ (p ++ strBytes "\r\n"))) := by
  simp only [partBytes, headerLine, partHead, List.append_assoc]
  rfl

theorem parsePart_partBytes (p : List Nat) : parsePart (partBytes p) = some (p.length, p) := by
  rw [partBytes_shape]
  simp only [parsePart]
  rw [dropPrefixBytes_append]
  have e2 : strBytes "\r\n\r\n" ++ (p ++ strBytes "\r\n") =
      13 :: 10 :: 13 :: 10 :: (p ++ strBytes "\r\n") := rfl
  rw [e2]
  obtain ⟨ht, hd⟩ := takeWhile_append_stop (natDecimal p.length) 13
    (10 :: 13 :: 10 :: (p ++ strBytes "\r\n"))
    (mem_natDecimal_isDigit p.length) (by decide)
  simp only [Option.some_bind, ht, hd]
  rw [if_neg (natDecimal_ne_nil p.length)]
  have e3 : (13 : Nat) :: 10 :: 13 :: 10 :: (p ++ strBytes "\r\n") =
      strBytes "\r\n\r\n" ++ (p ++ strBytes "\r\n") := rfl
  rw [e3, dropPrefixBytes_append]
  obtain ⟨htake, hdrop⟩ := take_len_append p (strBytes "\r\n")
  simp only [Option.some_bind, decVal_natDecimal, htake, hdrop]
  simp

/-! ## Claim theorems -/

/-- C1: for every frame emitted on a connection to the stream path, the
bytes written for that part are exactly the boundary literal `--frame`
followed by CRLF, the `Content-Type: image/jpeg` header line, a
`Content-Length` header line whose declared value equals the actual byte
length of the encoded image, a blank line, exactly that many payload
bytes, and a trailing CRLF; parsing the part back recovers the declared
length and the payload, and the declared length equals the payload's
length. -/
theorem stream_part_wire_format (f : Frame) (enc : Frame → Option (List Nat))
    (buf : List Nat) (sd : Bool) (h : enc f = some buf) :
    (doGetStreamTick (some f) enc .ok sd).1 =
        strBytes partHead ++
          (natDecimal buf.length ++ (strBytes "\r\n\r\n" ++ (buf ++ strBytes "\r\n"))) ∧
      parsePart (doGetStreamTick (some f) enc .ok sd).1 = some (buf.length, buf) := by
  simp only [doGetStreamTick, h]
  exact ⟨partBytes_shape buf, parsePart_partBytes buf⟩

theorem stream_part_wire_format_witness :
    (fun _ : Frame => some [65, 66]) (Frame.device 0) = some [65, 66] ∧
      parsePart (doGetStreamTick (some (Frame.device 0))
        (fun _ => some [65, 66]) .ok false).1 = some (2, [65, 66]) :=
  ⟨rfl,
   (stream_part_wire_format (Frame.device 0) (fun _ => some [65, 66]) [65, 66] false rfl).2⟩

/-- C2 counterexample: with the server's shutdown flag set, a streaming
tick whose writes succeed leaves the loop in `Streaming`, not `Closed` —
the loop body never reads any shutdown state, so an in-flight streaming
loop does not observe shutdown within one tick interval. -/
theorem shutdown_not_observed :
    (doGetStreamTick (some (Frame.device 3)) (fun _ => some [65]) .ok true).2 =
        ConnState.Streaming ∧ ConnState.Streaming ≠ ConnState.Closed :=
  ⟨rfl, by decide⟩

/-- C2 (amended): the streaming loop transitions to `Closed` exactly when
a part was actually written and the write failed with a peer reset or a
broken pipe; the server's shutdown signal is not observed — a tick behaves
identically whether or not shutdown has been requested. -/
theorem streaming_closes_iff_write_fails (frame : Option Frame)
    (enc : Frame → Option (List Nat)) (w : WriteOutcome) (sd : Bool) :
    ((doGetStreamTick frame enc w sd).2 = ConnState.Closed ↔
        (w ≠ WriteOutcome.ok ∧ ∃ f buf, frame = some f ∧ enc f = some buf)) ∧
      doGetStreamTick frame enc w true = doGetStreamTick frame enc w false := by
  refine ⟨?_, rfl⟩
  cases frame with
  | none => simp [doGetStreamTick]
  | some f =>
    cases henc : enc f with
    | none => simp [doGetStreamTick, henc]
    | some buf =>
      cases w with
      | ok => simp [doGetStreamTick, henc]
      | connectionReset =>
        simp only [doGetStreamTick, henc]
        exact ⟨fun _ => ⟨by decide, f, buf, rfl, henc⟩, fun _ => trivial⟩
      | brokenPipe =>
        simp only [doGetStreamTick, henc]
        exact ⟨fun _ => ⟨by decide, f, buf, rfl, henc⟩, fun _ => trivial⟩

/-- C3 counterexample: starting the server with both listeners disabled
(all external-call outcomes irrelevant) yields the running keep-alive loop
with no listener active, not a `sys.exit(1)` — the code treats this as no
error. -/
theorem no_listener_no_exit :
    serverStart ⟨false, false, false, false, false, false, false, false, false⟩ =
        StartResult.running false false ∧
      StartResult.running false false ≠ StartResult.exited := by
  decide

/-- C3 (amended): if the server is started with both listeners disabled,
`start` raises nothing and exits nothing: it enters the keep-alive loop
running with no active listener, for every combination of external-call
outcomes. -/
theorem both_disabled_runs_idle (i : StartInput)
    (h1 : i.use_https = false) (h2 : i.use_http = false) :
    serverStart i = StartResult.running false false := by
  simp [serverStart, h1, h2]

theorem both_disabled_runs_idle_witness :
    (⟨false, false, true, true, true, true, true, true, true⟩ : StartInput).use_https = false ∧
      (⟨false, false, true, true, true, true, true, true, true⟩ : StartInput).use_http = false ∧
      serverStart ⟨false, false, true, true, true, true, true, true, true⟩ =
        StartResult.running false false :=
  ⟨rfl, rfl, both_disabled_runs_idle _ rfl rfl⟩

/-- C4: whenever TLS provisioning fails — certificate/key generation fails
with at least one of the two files missing, or SSL-context construction
fails — and HTTP is enabled (with its bind and the directory creation
succeeding), the server disables HTTPS for the run, still starts the
plaintext HTTP listener, and does not exit. -/
theorem tls_failure_degrades_to_http (i : StartInput)
    (hhttp : i.use_http = true) (hhttps : i.use_https = true)
    (hmkdir : i.mkdir_ok = true) (hbind : i.http_bind_ok = true)
    (hfail : ((i.cert_exists = false ∨ i.key_exists = false) ∧ i.gen_ok = false) ∨
      i.ctx_ok = false) :
    serverStart i = StartResult.running false true ∧
      serverStart i ≠ StartResult.exited := by
  obtain ⟨uhs, uh, ce, ke, mk, go, co, hbs, hb⟩ := i
  revert hhttp hhttps hmkdir hbind hfail
  cases uhs <;> cases uh <;> cases ce <;> cases ke <;> cases mk <;> cases go <;>
    cases co <;> cases hbs <;> cases hb <;> decide

theorem tls_failure_degrades_to_http_witness :
    (⟨true, true, false, true, true, false, true, true, true⟩ : StartInput).use_http = true ∧
      serverStart ⟨true, true, false, true, true, false, true, true, true⟩ =
        StartResult.running false true :=
  ⟨rfl,
   (tls_failure_degrades_to_http ⟨true, true, false, true, true, false, true, true, true⟩
     rfl rfl rfl rfl (Or.inl ⟨Or.inl rfl, rfl⟩)).1⟩

/-- C5: every successful provisioning run generates an RSA key of at least
2048 bits and a self-signed certificate (subject equals issuer) whose
common name is the hostname, whose alternate names include the hostname,
`localhost` and `127.0.0.1`, whose validity window is `[now, now + 365
days]`, signed with SHA-256 (a modern hash), with the private key written
unencrypted in PEM/PKCS8, and with the certificate's public key matching
the private key. -/
theorem cert_generation_properties (hostname : String) (now keyId serial : Nat) :
    2048 ≤ (generate_self_signed_cert hostname now keyId serial).1.keySize ∧
      (generate_self_signed_cert hostname now keyId serial).2.1.subject =
        (generate_self_signed_cert hostname now keyId serial).2.1.issuer ∧
      (generate_self_signed_cert hostname now keyId serial).2.1.subject.commonName = hostname ∧
      SAN.dns hostname ∈ (generate_self_signed_cert hostname now keyId serial).2.1.san ∧
      SAN.dns "localhost" ∈ (generate_self_signed_cert hostname now keyId serial).2.1.san ∧
      SAN.ip "127.0.0.1" ∈ (generate_self_signed_cert hostname now keyId serial).2.1.san ∧
      (generate_self_signed_cert hostname now keyId serial).2.1.notBefore = now ∧
      (generate_self_signed_cert hostname now keyId serial).2.1.notAfter = now + days365 ∧
      (generate_self_signed_cert hostname now keyId serial).2.1.sigHash = HashAlg.sha256 ∧
      modernHash (generate_self_signed_cert hostname now keyId serial).2.1.sigHash = true ∧
      (generate_self_signed_cert hostname now keyId serial).2.2 = ⟨true, true, true⟩ ∧
      (generate_self_signed_cert hostname now keyId serial).2.1.publicKey =
        (generate_self_signed_cert hostname now keyId serial).1.public_key := by
  refine ⟨le_rfl, rfl, rfl, ?_, ?_, ?_, rfl, rfl, rfl, rfl, rfl, rfl⟩
  · exact List.mem_cons_self _ _
  · exact List.mem_cons_of_mem _ (List.mem_cons_self _ _)
  · exact List.mem_cons_of_mem _ (List.mem_cons_of_mem _ (List.mem_cons_self _ _))

/-- C6: provisioning is idempotent over existing files — when both the
certificate file and the key file exist, the provisioning step returns the
file system unchanged (contents and timestamps intact) without
regenerating; and generation runs exactly when at least one of the two
files is missing. -/
theorem provision_idempotent (fs : CertFS) (c k : List Nat) (t : Nat) :
    (fs.cert.isSome = true → fs.key.isSome = true →
        provisionCerts fs c k t = (fs, false)) ∧
      ((provisionCerts fs c k t).2 = true ↔
        ¬(fs.cert.isSome = true ∧ fs.key.isSome = true)) := by
  constructor
  · intro h1 h2
    simp [provisionCerts, h1, h2]
  · by_cases h1 : fs.cert.isSome <;> by_cases h2 : fs.key.isSome <;>
      simp [provisionCerts, h1, h2]

theorem provision_idempotent_witness :
    (⟨some ⟨[0], 1⟩, some ⟨[2], 3⟩⟩ : CertFS).cert.isSome = true ∧
      (⟨some ⟨[0], 1⟩, some ⟨[2], 3⟩⟩ : CertFS).key.isSome = true ∧
      provisionCerts ⟨some ⟨[0], 1⟩, some ⟨[2], 3⟩⟩ [4] [5] 6 =
        (⟨some ⟨[0], 1⟩, some ⟨[2], 3⟩⟩, false) :=
  ⟨rfl, rfl, (provision_idempotent ⟨some ⟨[0], 1⟩, some ⟨[2], 3⟩⟩ [4] [5] 6).1 rfl rfl⟩

/-- C7: on a tick where the frame fetch returns nothing, or where the
fetched frame fails to encode, the loop writes no bytes on the connection
and stays in `Streaming` — neither condition closes the loop or the
connection. -/
theorem unavailable_or_encode_fail_skips_tick (enc : Frame → Option (List Nat))
    (w : WriteOutcome) (sd : Bool) :
    doGetStreamTick none enc w sd = ([], ConnState.Streaming) ∧
      ∀ f : Frame, enc f = none →
        doGetStreamTick (some f) enc w sd = ([], ConnState.Streaming) := by
  refine ⟨rfl, fun f hf => ?_⟩
  simp [doGetStreamTick, hf]

theorem unavailable_or_encode_fail_skips_tick_witness :
    doGetStreamTick none (fun _ => none) .ok false = ([], ConnState.Streaming) ∧
      doGetStreamTick (some (Frame.device 7)) (fun _ => none) .ok false =
        ([], ConnState.Streaming) :=
  ⟨(unavailable_or_encode_fail_skips_tick (fun _ => none) .ok false).1,
   (unavailable_or_encode_fail_skips_tick (fun _ => none) .ok false).2 (Frame.device 7) rfl⟩

/-- C8: synthetic frame generation is deterministic — two camera states
with the same frame-counter value, at the same wall-clock instant and with
the same deterministic math collaborators, produce identical synthetic
images (gradient, timestamp text, sinusoidal marker position and overlay
captions all agree), whatever the other state fields are. -/
theorem synthetic_frame_deterministic (ops : MathOps) (now : Nat) (s1 s2 : CamState)
    (h : s1.frame_count = s2.frame_count) :
    (generate_synthetic_frame ops now s1).1 = (generate_synthetic_frame ops now s2).1 := by
  simp [generate_synthetic_frame, h]

theorem synthetic_frame_deterministic_witness :
    (⟨0, true, none, 5⟩ : CamState).frame_count =
        (⟨3, false, some true, 5⟩ : CamState).frame_count ∧
      (generate_synthetic_frame ⟨fun _ => 0, fun _ => 0, fun _ => ""⟩ 9 ⟨0, true, none, 5⟩).1 =
        (generate_synthetic_frame ⟨fun _ => 0, fun _ => 0, fun _ => ""⟩ 9
          ⟨3, false, some true, 5⟩).1 :=
  ⟨rfl,
   synthetic_frame_deterministic ⟨fun _ => 0, fun _ => 0, fun _ => ""⟩ 9
     ⟨0, true, none, 5⟩ ⟨3, false, some true, 5⟩ rfl⟩

/-- C9: when opening the capture device fails at construction (the capture
does not open, or the call raises), the camera records the fallback in its
state by setting the simulation flag, construction still completes, and
every subsequent fetch serves a synthetic frame. -/
theorem open_failure_falls_back_to_synthetic (src : Int) (o : OpenOutcome)
    (ho : o ≠ OpenOutcome.opened) :
    (mkVirtualCamera src false o).simulation_mode = true ∧
      ∀ (ops : MathOps) (now : Nat) (rd : Option Nat),
        (get_frame ops now rd (mkVirtualCamera src false o)).1 =
          some (Frame.synthetic (generate_synthetic_frame_image ops
            (mkVirtualCamera src false o).frame_count now)) := by
  cases o with
  | opened => exact absurd rfl ho
  | notOpened =>
    exact ⟨rfl, fun ops now rd => rfl⟩
  | raised =>
    exact ⟨rfl, fun ops now rd => rfl⟩

theorem open_failure_falls_back_to_synthetic_witness :
    OpenOutcome.raised ≠ OpenOutcome.opened ∧
      (mkVirtualCamera 5 false .raised).simulation_mode = true ∧
      (get_frame ⟨fun _ => 1, fun _ => 1, fun _ => "t"⟩ 3 none
          (mkVirtualCamera 5 false .raised)).1 =
        some (Frame.synthetic (generate_synthetic_frame_image
          ⟨fun _ => 1, fun _ => 1, fun _ => "t"⟩
          (mkVirtualCamera 5 false .raised).frame_count 3)) :=
  ⟨by decide,
   (open_failure_falls_back_to_synthetic 5 .raised (by decide)).1,
   (open_failure_falls_back_to_synthetic 5 .raised (by decide)).2
     ⟨fun _ => 1, fun _ => 1, fun _ => "t"⟩ 3 none⟩

/-- C10: fetching a frame never changes the simulation flag — the state
returned by `get_frame` carries the same flag as the input state — and in
particular a transient device read failure on an opened, non-simulated
camera returns no frame and leaves the state entirely unchanged. -/
theorem get_frame_preserves_simulation_flag (ops : MathOps) (now : Nat)
    (rd : Option Nat) (s : CamState) :
    ((get_frame ops now rd s).2).simulation_mode = s.simulation_mode ∧
      (s.simulation_mode = false → s.cap = some true → rd = none →
        get_frame ops now rd s = (none, s)) := by
  constructor
  · by_cases h : s.simulation_mode
    · simp [get_frame, generate_synthetic_frame, h]
    · cases hc : s.cap with
      | none => simp [get_frame, h, hc]
      | some b =>
        cases b with
        | false => simp [get_frame, h, hc]
        | true => cases rd <;> simp [get_frame, h, hc]
  · intro h1 h2 h3
    simp [get_frame, h1, h2, h3]

theorem get_frame_preserves_simulation_flag_witness :
    (⟨0, false, some true, 0⟩ : CamState).simulation_mode = false ∧
      (⟨0, false, some true, 0⟩ : CamState).cap = some true ∧
      get_frame ⟨fun _ => 0, fun _ => 0, fun _ => ""⟩ 1 none ⟨0, false, some true, 0⟩ =
        (none, ⟨0, false, some true, 0⟩) :=
  ⟨rfl, rfl,
   (get_frame_preserves_simulation_flag ⟨fun _ => 0, fun _ => 0, fun _ => ""⟩ 1 none
     ⟨0, false, some true, 0⟩).2 rfl rfl rfl⟩
